import Mathlib

set_option linter.unusedVariables false

/-! Shallow embedding of `src/osu/precise/mod.rs` from akatsuki-pp-rs.

Machine `f32` arithmetic is idealized as exact rational arithmetic.
The transcendental float operations (`sqrt`, `cbrt`, `powf`, `exp2`) are
parameters (`FloatOps`), and the strain formulas of the missing
`skill` / `skill_kind` modules are parameters (`SkillOps`); everything
else is translated directly from the source.  Rust panics (`unwrap` on
`None`, index underflow) are modelled by `Option` results. -/

/-- Two dimensional position, mirroring `Pos2` from the parse module. -/
structure Pos where
  x : ℚ
  y : ℚ
deriving DecidableEq

/-- Modelled from the spec: `Pos2::new(v)` from the missing parse module
builds the position `(v, v)` used for the stack offset. -/
def Pos.single (v : ℚ) : Pos := ⟨v, v⟩

/-- Componentwise addition of positions (`+=` on `Pos2`). -/
def Pos.add (p q : Pos) : Pos := ⟨p.x + q.x, p.y + q.y⟩

/-- Squared Euclidean distance between two positions. -/
def Pos.distSq (p q : Pos) : ℚ := (p.x - q.x) ^ 2 + (p.y - q.y) ^ 2

/-- The comparison `p.distance(q) < d` of the source for a nonnegative bound
`d`, stated on squares so that it is exact rational arithmetic. -/
abbrev Pos.closerThan (p q : Pos) (d : ℚ) : Prop := Pos.distSq p q < d ^ 2

/-- Kind tag of a normalized object: circle, slider or spinner. -/
inductive ObjKind where
  | circle : ObjKind
  | slider : ObjKind
  | spinner : ObjKind
deriving DecidableEq

/-- Normalized hit object (`OsuObject` of the missing `osu_object` module):
start time, end time, start position, end position, kind tag and the mutable
stack height.  `end_time` and `end_pos` are stored as fields standing for the
`end_time()` / `end_pos()` accessors. -/
structure OsuObject where
  time : ℚ
  end_time : ℚ
  pos : Pos
  end_pos : Pos
  kind : ObjKind
  stack_height : ℚ
deriving DecidableEq

instance : Inhabited OsuObject :=
  ⟨{ time := 0, end_time := 0, pos := ⟨0, 0⟩, end_pos := ⟨0, 0⟩,
     kind := ObjKind.circle, stack_height := 0 }⟩

abbrev OsuObject.is_circle (o : OsuObject) : Prop := o.kind = ObjKind.circle

abbrev OsuObject.is_slider (o : OsuObject) : Prop := o.kind = ObjKind.slider

abbrev OsuObject.is_spinner (o : OsuObject) : Prop := o.kind = ObjKind.spinner

/-- Indexing `hit_objects[n]`; all source accesses are in bounds, out of
bounds reads return the default object. -/
def getObj (objs : List OsuObject) (n : ℕ) : OsuObject := objs.getD n default

/-- Write `hit_objects[n].stack_height = v`. -/
def setStack : List OsuObject → ℕ → ℚ → List OsuObject
  | [], _, _ => []
  | o :: rest, 0, v => { o with stack_height := v } :: rest
  | o :: rest, n + 1, v => o :: setStack rest n v

/-- Write `hit_objects[n].stack_height -= d`. -/
def subStack (objs : List OsuObject) (n : ℕ) (d : ℚ) : List OsuObject :=
  setStack objs n ((getObj objs n).stack_height - d)

/-- Write `hit_objects[n].stack_height += d`. -/
def addStack (objs : List OsuObject) (n : ℕ) (d : ℚ) : List OsuObject :=
  setStack objs n ((getObj objs n).stack_height + d)

/-- `STACK_DISTANCE` constant of the source. -/
def STACK_DISTANCE : ℚ := 3

/-- The inner `for j in n + 1..=i` loop of the slider special case in
`stacking`: every object in the range whose position is within
`STACK_DISTANCE` of slider `n`'s end position has its stack height reduced by
`offset`.  `n`'s end position is re-read at every step, as in the source.
`count` is the number of remaining indices, `j` the current one. -/
def sliderOffsetLoop (n : ℕ) (offset : ℚ) :
    List OsuObject → ℕ → ℕ → List OsuObject
  | objs, _, 0 => objs
  | objs, j, count + 1 =>
    sliderOffsetLoop n offset
      (if Pos.closerThan (getObj objs n).end_pos (getObj objs j).pos
          STACK_DISTANCE then
        subStack objs j offset
      else objs) (j + 1) count

/-- The backward scan of `stacking` for a circle candidate `i`.  The fuel
argument is the current value of `n` before the `checked_sub`; `objIdx` is
`obj_i_idx`; the state is the object list together with
`extended_start_idx`. -/
def circleScan (thr : ℚ) (i : ℕ) :
    ℕ → List OsuObject × ℕ → ℕ → List OsuObject × ℕ
  | 0, st, _ => st
  | n + 1, st, objIdx =>
    if (getObj st.1 n).is_spinner then
      circleScan thr i n st objIdx
    else if thr < (getObj st.1 objIdx).time - (getObj st.1 n).end_time then
      st
    else if n < st.2 then
      if (getObj (setStack st.1 n 0) n).is_slider ∧
          Pos.closerThan (getObj (setStack st.1 n 0) n).end_pos
            (getObj (setStack st.1 n 0) objIdx).pos STACK_DISTANCE then
        (sliderOffsetLoop n
          ((getObj (setStack st.1 n 0) objIdx).stack_height -
            (getObj (setStack st.1 n 0) n).stack_height + 1)
          (setStack st.1 n 0) (n + 1) (i - n), n)
      else if Pos.closerThan (getObj (setStack st.1 n 0) n).pos
          (getObj (setStack st.1 n 0) objIdx).pos STACK_DISTANCE then
        circleScan thr i n
          (setStack (setStack st.1 n 0) n
            ((getObj (setStack st.1 n 0) objIdx).stack_height + 1), n) n
      else
        circleScan thr i n (setStack st.1 n 0, n) objIdx
    else
      if (getObj st.1 n).is_slider ∧
          Pos.closerThan (getObj st.1 n).end_pos (getObj st.1 objIdx).pos
            STACK_DISTANCE then
        (sliderOffsetLoop n
          ((getObj st.1 objIdx).stack_height -
            (getObj st.1 n).stack_height + 1) st.1 (n + 1) (i - n), st.2)
      else if Pos.closerThan (getObj st.1 n).pos (getObj st.1 objIdx).pos
          STACK_DISTANCE then
        circleScan thr i n
          (setStack st.1 n ((getObj st.1 objIdx).stack_height + 1), st.2) n
      else
        circleScan thr i n st objIdx

/-- The backward scan of `stacking` for a slider candidate: always stacks
positively, comparing the scanned object's end position against
`obj_i_idx`'s start position and the start times. -/
def sliderScan (thr : ℚ) : ℕ → List OsuObject → ℕ → List OsuObject
  | 0, objs, _ => objs
  | n + 1, objs, objIdx =>
    if (getObj objs n).is_spinner then
      sliderScan thr n objs objIdx
    else if thr < (getObj objs objIdx).time - (getObj objs n).time then
      objs
    else if Pos.closerThan (getObj objs n).end_pos (getObj objs objIdx).pos
        STACK_DISTANCE then
      sliderScan thr n
        (setStack objs n ((getObj objs objIdx).stack_height + 1)) n
    else
      sliderScan thr n objs objIdx

/-- One iteration of the outer loop of `stacking` at candidate index `i`. -/
def stackingStep (thr : ℚ) (st : List OsuObject × ℕ) (i : ℕ) :
    List OsuObject × ℕ :=
  if 0 < |(getObj st.1 i).stack_height| ∨ (getObj st.1 i).is_spinner then st
  else if (getObj st.1 i).is_circle then circleScan thr i i st i
  else if (getObj st.1 i).is_slider then (sliderScan thr i st.1 i, st.2)
  else st

/-- The outer `for i in (1..=extended_end_idx).rev()` loop of `stacking`,
processing candidates `i, i - 1, ..., 1`. -/
def stackingRun (thr : ℚ) : ℕ → List OsuObject × ℕ → List OsuObject × ℕ
  | 0, st => st
  | i + 1, st => stackingRun thr i (stackingStep thr st (i + 1))

/-- The modern stack resolver (`fn stacking`), used for maps with format
version at least 6.  On an empty slice the source underflows
`hit_objects.len() - 1` and panics, modelled by `none`.
`extended_start_idx` starts at 0 as in the source. -/
def stacking (hit_objects : List OsuObject) (stack_threshold : ℚ) :
    Option (List OsuObject) :=
  match hit_objects with
  | [] => none
  | _ =>
    some (stackingRun stack_threshold (hit_objects.length - 1)
      (hit_objects, 0)).1

/-- The inner `for j in i + 1..` loop of `old_stacking`.  `endPos` is the
candidate's end position captured before the loop; `startTime` is the running
cursor, `sliderStack` the negative-stack counter.  The fuel is the number of
remaining indices. -/
def oldStackingInner (thr : ℚ) (i : ℕ) (endPos : Pos) :
    ℕ → ℕ → List OsuObject → ℚ → ℚ → List OsuObject
  | 0, _, objs, _, _ => objs
  | fuel + 1, j, objs, startTime, sliderStack =>
    if startTime < (getObj objs j).time - thr then objs
    else if Pos.closerThan (getObj objs j).pos (getObj objs i).pos
        STACK_DISTANCE then
      oldStackingInner thr i endPos fuel (j + 1) (addStack objs i 1)
        (getObj objs j).end_time sliderStack
    else if Pos.closerThan (getObj objs j).pos endPos STACK_DISTANCE then
      oldStackingInner thr i endPos fuel (j + 1)
        (subStack objs j (sliderStack + 1)) (getObj objs j).end_time
        (sliderStack + 1)
    else
      oldStackingInner thr i endPos fuel (j + 1) objs startTime sliderStack

/-- The outer loop of `old_stacking` over `i in 0..len`; the fuel is the
number of remaining candidates. -/
def oldStackingRun (thr : ℚ) (len : ℕ) :
    ℕ → ℕ → List OsuObject → List OsuObject
  | 0, _, objs => objs
  | fuel + 1, i, objs =>
    oldStackingRun thr len fuel (i + 1)
      (if (getObj objs i).stack_height ≠ 0 ∧ ¬(getObj objs i).is_slider then
        objs
      else
        oldStackingInner thr i (getObj objs i).end_pos (len - (i + 1))
          (i + 1) objs (getObj objs i).end_time 0)

/-- The legacy stack resolver (`fn old_stacking`), used for maps with format
version below 6. -/
def old_stacking (hit_objects : List OsuObject) (stack_threshold : ℚ) :
    List OsuObject :=
  oldStackingRun stack_threshold hit_objects.length hit_objects.length 0
    hit_objects

/-- Stack heights of a list of objects, for stating results. -/
def stackHeights (objs : List OsuObject) : List ℚ :=
  objs.map OsuObject.stack_height

/-- A plain circle at position `p` and time `t` with no stack height. -/
def mkCircle (p : Pos) (t : ℚ) : OsuObject :=
  { time := t, end_time := t, pos := p, end_pos := p,
    kind := ObjKind.circle, stack_height := 0 }

/-- A slider starting at `p`, ending at position `q` and time `t2`. -/
def mkSlider (p : Pos) (t : ℚ) (q : Pos) (t2 : ℚ) : OsuObject :=
  { time := t, end_time := t2, pos := p, end_pos := q,
    kind := ObjKind.slider, stack_height := 0 }

/-- Parameters standing for the transcendental `f32` operations of the
source, which have no exact rational counterpart. -/
structure FloatOps where
  sqrt : ℚ → ℚ
  cbrt : ℚ → ℚ
  powf : ℚ → ℚ → ℚ
  exp2 : ℚ → ℚ

/-- Pairwise metrics (`DifficultyObject` of the missing `difficulty_object`
module): the current base object, jump distance, travel distance, strain
time and the rolling two-predecessor window. -/
structure DifficultyObject where
  base : OsuObject
  jump_dist : ℚ
  travel_dist : ℚ
  strain_time : ℚ
  prev_jump_dist : Option ℚ
  prev_strain_time : Option ℚ
  prev_prev : Option OsuObject

/-- Modelled from the spec: the positive floor for strain times preventing
division by zero for duplicate timestamps. -/
def MIN_STRAIN_TIME : ℚ := 50

/-- Modelled from the spec: `DifficultyObject::new` of the missing
`difficulty_object` module.  Strain time is the time delta floored to
`MIN_STRAIN_TIME`; jump distance is the scaled Euclidean distance between
the two positions; a slider predecessor contributes a travel distance; the
two-predecessor window is carried along for the skills. -/
def DifficultyObject.new (fops : FloatOps) (curr prev : OsuObject)
    (prev_vals : Option (ℚ × ℚ)) (prev_prev : Option OsuObject)
    (scale_factor scaling_factor : ℚ) : DifficultyObject :=
  { base := curr
    jump_dist := fops.sqrt (Pos.distSq curr.pos prev.pos) * scaling_factor
    travel_dist := if prev.is_slider then
        fops.sqrt (Pos.distSq prev.pos prev.end_pos) * scaling_factor
      else 0
    strain_time := max (curr.time - prev.time) MIN_STRAIN_TIME
    prev_jump_dist := prev_vals.map Prod.fst
    prev_strain_time := prev_vals.map Prod.snd
    prev_prev := prev_prev }

/-- Skill kinds with their parameters (`SkillKind` of the missing
`skill_kind` module): aim, speed with its hit window, flashlight with its
scaling factor. -/
inductive SkillKind where
  | aim : SkillKind
  | speed : ℚ → SkillKind
  | flashlight : ℚ → SkillKind
deriving DecidableEq

/-- Modelled from the spec: the per-skill strain state of the missing
`skill` module: the decaying strain value, the current section's running
peak and the committed section peaks. -/
structure Skill where
  kind : SkillKind
  current_strain : ℚ
  current_section_peak : ℚ
  strain_peaks : List ℚ
deriving DecidableEq

def Skill.new (kind : SkillKind) : Skill :=
  { kind := kind, current_strain := 0, current_section_peak := 0,
    strain_peaks := [] }

/-- Modelled from the spec: the aspect-specific strain formulas of the
missing `skill_kind` module, abstracted as parameters.  `process_strain`
maps the current decaying strain and the pairwise metrics to the updated
strain; `section_baseline` maps the current strain and the section boundary
time to the decayed baseline that opens the new section. -/
structure SkillOps where
  process_strain : SkillKind → ℚ → DifficultyObject → ℚ
  section_baseline : SkillKind → ℚ → ℚ → ℚ

/-- `Skill::process`: update the decaying strain and fold it into the
current section's peak via `max`. -/
def Skill.process (ops : SkillOps) (s : Skill) (h : DifficultyObject) :
    Skill :=
  let cs := ops.process_strain s.kind s.current_strain h
  { s with
    current_strain := cs
    current_section_peak := max cs s.current_section_peak }

/-- `Skill::save_current_peak`: commit the current section's peak. -/
def Skill.save_current_peak (s : Skill) : Skill :=
  { s with strain_peaks := s.strain_peaks ++ [s.current_section_peak] }

/-- `Skill::start_new_section_from`: open a new section whose peak starts
from the decayed strain baseline at the boundary time. -/
def Skill.start_new_section_from (ops : SkillOps) (s : Skill) (time : ℚ) :
    Skill :=
  { s with
    current_section_peak := ops.section_baseline s.kind s.current_strain time }

/-- Insertion into a descending-sorted list of peaks. -/
def insertPeakDesc (x : ℚ) : List ℚ → List ℚ
  | [] => [x]
  | y :: rest => if y < x then x :: y :: rest else y :: insertPeakDesc x rest

/-- Sort peaks in descending order. -/
def sortPeaksDesc : List ℚ → List ℚ
  | [] => []
  | x :: rest => insertPeakDesc x (sortPeaksDesc rest)

/-- Modelled from the spec: the fixed per-rank decay multiplier of
`difficulty_value` in the missing `skill` module. -/
def DECAY_WEIGHT : ℚ := 9 / 10

/-- Weighted sum of sorted peaks with multiplicatively decaying weight. -/
def weightedPeakSum : List ℚ → ℚ → ℚ
  | [], _ => 0
  | p :: rest, w => p * w + weightedPeakSum rest (w * DECAY_WEIGHT)

/-- Modelled from the spec: `Skill::difficulty_value` reduces the retained
peaks to a scalar: sort descending, then sum with per-rank decay. -/
def Skill.difficulty_value (s : Skill) : ℚ :=
  weightedPeakSum (sortPeaksDesc s.strain_peaks) 1

/-- `SECTION_LEN` constant of the source. -/
def SECTION_LEN : ℚ := 400

/-- `DIFFICULTY_MULTIPLIER` constant of the source. -/
def DIFFICULTY_MULTIPLIER : ℚ := 675 / 10000

/-- `OBJECT_RADIUS` constant of the source. -/
def OBJECT_RADIUS : ℚ := 64

/-- `NORMALIZED_RADIUS` constant of the source. -/
def NORMALIZED_RADIUS : ℚ := 52

def OSU_AR_MAX : ℚ := 450

def OSU_AR_AVG : ℚ := 1200

def OSU_AR_MIN : ℚ := 1800

/-- Modelled from the spec: `crate::difficulty_range` — linear interpolation
on either side of the midpoint 5 between the three thresholds. -/
def difficulty_range (val maxv avgv minv : ℚ) : ℚ :=
  if 5 < val then avgv + (maxv - avgv) * (val - 5) / 5
  else if val < 5 then avgv - (avgv - minv) * (5 - val) / 5
  else avgv

def difficulty_range_ar (ar : ℚ) : ℚ :=
  difficulty_range ar OSU_AR_MAX OSU_AR_AVG OSU_AR_MIN

/-- Modelled from the spec: the millisecond OD thresholds used by the
missing `super::difficulty_range_od` (20 / 50 / 80). -/
def OSU_OD_MAX : ℚ := 20

def OSU_OD_AVG : ℚ := 50

def OSU_OD_MIN : ℚ := 80

def difficulty_range_od (od : ℚ) : ℚ :=
  difficulty_range od OSU_OD_MAX OSU_OD_AVG OSU_OD_MIN

/-- Raw note record supplied by the external parse stage: kind, time,
position, end time and end position, a validity flag (invalid notes such as
zero-length sliders are dropped by preprocessing) and the combo amount the
note contributes. -/
structure RawNote where
  kind : ObjKind
  time : ℚ
  pos : Pos
  end_time : ℚ
  end_pos : Pos
  valid : Bool
  combo : ℕ
deriving DecidableEq

/-- The parsed beatmap fields consumed by this module. -/
structure Beatmap where
  hit_objects : List RawNote
  n_circles : ℕ
  n_sliders : ℕ
  n_spinners : ℕ
  ar : ℚ
  cs : ℚ
  od : ℚ
  hp : ℚ
  stack_leniency : ℚ
  version : ℤ
deriving DecidableEq

/-- The modifier capability object (`Mods`): flag queries and clock rate. -/
structure ModsData where
  hr : Bool
  ez : Bool
  fl : Bool
  rx : Bool
  clock_rate : ℚ
deriving DecidableEq

/-- Modifier-adjusted scalar attributes (`map.attributes().mods(mods)`). -/
structure MapAttributes where
  ar : ℚ
  od : ℚ
  cs : ℚ
  hp : ℚ
  clock_rate : ℚ
deriving DecidableEq

/-- Modelled from the spec: hard rock multiplies a 0-10 rating by 1.4
(capped at 10), easy halves it. -/
def adjustRating (mods : ModsData) (v : ℚ) : ℚ :=
  if mods.hr then min (v * (7 / 5)) 10 else if mods.ez then v / 2 else v

/-- Modelled from the spec: hard rock multiplies circle size by 1.3 (capped
at 10), easy halves it. -/
def adjustCs (mods : ModsData) (v : ℚ) : ℚ :=
  if mods.hr then min (v * (13 / 10)) 10 else if mods.ez then v / 2 else v

/-- Modelled from the spec: `map.attributes().mods(mods)` of the external
`Beatmap` implementation. -/
def mapAttributesWithMods (map : Beatmap) (mods : ModsData) :
    MapAttributes :=
  { ar := adjustRating mods map.ar, od := adjustRating mods map.od,
    cs := adjustCs mods map.cs, hp := adjustRating mods map.hp,
    clock_rate := mods.clock_rate }

/-- Playfield height used by the hard rock flip. -/
def PLAYFIELD_HEIGHT : ℚ := 384

/-- Modelled from the spec: hard rock flips the Y position. -/
def flipY (hr : Bool) (p : Pos) : Pos :=
  if hr then ⟨p.x, PLAYFIELD_HEIGHT - p.y⟩ else p

/-- Modelled from the spec: `OsuObject::new` of the missing `osu_object`
module converts a raw note into a normalized object with stack height 0,
flipping the Y positions under hard rock; invalid notes are dropped by
returning `none`. -/
def OsuObject.ofRaw (hr : Bool) (h : RawNote) : Option OsuObject :=
  if h.valid then
    some { time := h.time
           end_time := h.end_time
           pos := flipY hr h.pos
           end_pos := flipY hr h.end_pos
           kind := h.kind
           stack_height := 0 }
  else none

/-- The `f32` ceiling, idealized on rationals. -/
def qCeil (x : ℚ) : ℚ := (⌈x⌉ : ℤ)

/-- Number of iterations of the `while h.base.time > current_section_end`
loop: the least `k` with the time at most `se + k * SECTION_LEN`. -/
def sectionSteps (t se : ℚ) : ℕ := (⌈(t - se) / SECTION_LEN⌉).toNat

/-- The while-loop body iterated `k` times: optionally commit each skill's
peak, open a new section at the boundary, advance the boundary. -/
def runSections (ops : SkillOps) (save : Bool) :
    ℕ → List Skill → ℚ → List Skill × ℚ
  | 0, skills, se => (skills, se)
  | k + 1, skills, se =>
    let skills2 := skills.map (fun s =>
      Skill.start_new_section_from ops
        (if save then s.save_current_peak else s) se)
    runSections ops save k skills2 (se + SECTION_LEN)

/-- The while loop advancing section boundaries past the object's time. -/
def crossSections (ops : SkillOps) (save : Bool) (t : ℚ)
    (skills : List Skill) (se : ℚ) : List Skill × ℚ :=
  runSections ops save (sectionSteps t se) skills se

/-- The rolling state of the evaluation loop. -/
structure EvalState where
  skills : List Skill
  section_end : ℚ
  prev_prev : Option OsuObject
  prev : OsuObject
  prev_vals : Option (ℚ × ℚ)

/-- One iteration of the `for curr in hit_objects` loop. -/
def evalStep (ops : SkillOps) (fops : FloatOps)
    (scale_factor scaling_factor : ℚ) (st : EvalState) (curr : OsuObject) :
    EvalState :=
  let h := DifficultyObject.new fops curr st.prev st.prev_vals st.prev_prev
    scale_factor scaling_factor
  let p := crossSections ops true h.base.time st.skills st.section_end
  { skills := p.1.map (fun s => Skill.process ops s h),
    section_end := p.2,
    prev_prev := some st.prev, prev := curr,
    prev_vals := some (h.jump_dist, h.strain_time) }

/-- The evaluation loop shared by `stars` and `strains` from the first
`unwrap` on: the first two objects are handled separately (`none` models
the source's panic when fewer than two objects survive preprocessing; the
second object's boundary loop opens sections without committing peaks), the
remaining objects are folded, and finally every skill's current peak is
committed once. -/
def runSkills (ops : SkillOps) (fops : FloatOps) (skills0 : List Skill)
    (scale_factor scaling_factor : ℚ) :
    List OsuObject → Option (List Skill)
  | o1 :: o2 :: rest =>
    let se0 := qCeil (o1.time / SECTION_LEN) * SECTION_LEN
    let h := DifficultyObject.new fops o2 o1 none none scale_factor
      scaling_factor
    let p := crossSections ops false h.base.time skills0 se0
    let skills1 := p.1.map (fun s => Skill.process ops s h)
    let st : EvalState :=
      { skills := skills1, section_end := p.2, prev_prev := some o1,
        prev := o2, prev_vals := some (h.jump_dist, h.strain_time) }
    let fin := rest.foldl (evalStep ops fops scale_factor scaling_factor) st
    some (fin.skills.map Skill.save_current_peak)
  | _ => none

/-- The preprocessed object stream of `stars`: the first `take` raw notes
run through `OsuObject::new`. -/
def starsObjects (map : Beatmap) (mods : ModsData) (take : ℕ) :
    List OsuObject :=
  (map.hit_objects.take take).filterMap (OsuObject.ofRaw mods.hr)

/-- `raw_ar` as computed in `stars`: hard rock multiplies by 1.4 and caps
the result at 10. -/
def starsRawAr (map : Beatmap) (mods : ModsData) : ℚ :=
  if mods.hr then min (map.ar * (7 / 5)) 10
  else if mods.ez then map.ar * (1 / 2) else map.ar

/-- `raw_ar` as computed in `strains`: hard rock multiplies by 1.4 without
the 10.0 cap present in `stars`. -/
def strainsRawAr (map : Beatmap) (mods : ModsData) : ℚ :=
  if mods.hr then map.ar * (7 / 5)
  else if mods.ez then map.ar * (1 / 2) else map.ar

/-- The radius-derived `scale` value: `(1 - 0.7 * (cs - 5) / 5) / 2`. -/
def scaleOf (map : Beatmap) (mods : ModsData) : ℚ :=
  (1 - (7 / 10) * ((mapAttributesWithMods map mods).cs - 5) / 5) / 2

/-- `radius = OBJECT_RADIUS * scale`. -/
def radiusOf (map : Beatmap) (mods : ModsData) : ℚ :=
  OBJECT_RADIUS * scaleOf map mods

/-- `scaling_factor = NORMALIZED_RADIUS / radius` with the small-circle
bonus below radius 30. -/
def scalingFactorOf (map : Beatmap) (mods : ModsData) : ℚ :=
  let radius := radiusOf map mods
  let sf := NORMALIZED_RADIUS / radius
  if radius < 30 then sf * (1 + min (30 - radius) 5 / 50) else sf

/-- `stack_threshold = time_preempt * map.stack_leniency` in `stars`. -/
def starsStackThreshold (map : Beatmap) (mods : ModsData) : ℚ :=
  difficulty_range_ar (starsRawAr map mods) * map.stack_leniency

/-- `stack_threshold = time_preempt * map.stack_leniency` in `strains`. -/
def strainsStackThreshold (map : Beatmap) (mods : ModsData) : ℚ :=
  difficulty_range_ar (strainsRawAr map mods) * map.stack_leniency

/-- The stack resolution step of `stars`: format version at least 6 selects
the modern algorithm, earlier versions the legacy one. -/
def starsStacked (map : Beatmap) (mods : ModsData) (take : ℕ) :
    Option (List OsuObject) :=
  if 6 ≤ map.version then
    stacking (starsObjects map mods take) (starsStackThreshold map mods)
  else
    some (old_stacking (starsObjects map mods take)
      (starsStackThreshold map mods))

/-- `scale_factor = scale * -6.4`. -/
def scaleFactorOf (map : Beatmap) (mods : ModsData) : ℚ :=
  scaleOf map mods * (-(32 / 5))

/-- The single post pass over the stacked objects: divide the time by the
clock rate and offset the position by `stack_height * scale_factor` in both
coordinates. -/
def applyStackOffsetAndClock (clock_rate scale_factor : ℚ)
    (h : OsuObject) : OsuObject :=
  { h with
    time := h.time / clock_rate
    pos := h.pos.add (Pos.single (h.stack_height * scale_factor)) }

/-- The object stream `stars` feeds to the skills: stacking, then the
offset/clock post pass. -/
def starsProcessed (map : Beatmap) (mods : ModsData) (take : ℕ) :
    Option (List OsuObject) :=
  (starsStacked map mods take).map (List.map
    (applyStackOffsetAndClock (mapAttributesWithMods map mods).clock_rate
      (scaleFactorOf map mods)))

/-- `hit_window = difficulty_range_od(od) / clock_rate`. -/
def hitWindowOf (map : Beatmap) (mods : ModsData) : ℚ :=
  difficulty_range_od (mapAttributesWithMods map mods).od /
    (mapAttributesWithMods map mods).clock_rate

/-- `od = (80 - hit_window) / 6`. -/
def odOf (map : Beatmap) (mods : ModsData) : ℚ :=
  (80 - hitWindowOf map mods) / 6

/-- The skill vector: aim, speed, and flashlight when the modifier is
active. -/
def initSkills (mods : ModsData) (hit_window scaling_factor : ℚ) :
    List Skill :=
  [Skill.new SkillKind.aim, Skill.new (SkillKind.speed hit_window)] ++
    (if mods.fl then [Skill.new (SkillKind.flashlight scaling_factor)]
     else [])

/-- The skill states at the end of the `stars` evaluation loop. -/
def starsSkills (ops : SkillOps) (fops : FloatOps) (map : Beatmap)
    (mods : ModsData) (take : ℕ) : Option (List Skill) :=
  (starsProcessed map mods take).bind
    (runSkills ops fops
      (initSkills mods (hitWindowOf map mods) (scalingFactorOf map mods))
      (scaleFactorOf map mods) (scalingFactorOf map mods))

/-- Modelled from the spec: the running max combo accumulated by
`OsuObject::new` over the taken notes; dropped notes contribute nothing. -/
def maxComboOf (map : Beatmap) (take : ℕ) : ℕ :=
  ((map.hit_objects.take take).filter (fun h => h.valid)).foldl
    (fun a h => a + h.combo) 0

/-- Output attributes (`DifficultyAttributes` of the parent module). -/
structure DifficultyAttributes where
  ar : ℚ
  hp : ℚ
  od : ℚ
  aim_strain : ℚ
  speed_strain : ℚ
  flashlight_rating : ℚ
  n_circles : ℕ
  n_sliders : ℕ
  n_spinners : ℕ
  stars : ℚ
  max_combo : ℕ
deriving DecidableEq

instance : Inhabited DifficultyAttributes :=
  ⟨{ ar := 0, hp := 0, od := 0, aim_strain := 0, speed_strain := 0,
     flashlight_rating := 0, n_circles := 0, n_sliders := 0, n_spinners := 0,
     stars := 0, max_combo := 0 }⟩

/-- Output of `strains`: section length and combined per-section strains;
the `Default` derive of the source zeroes both fields. -/
structure Strains where
  section_length : ℚ
  strains : List ℚ
deriving DecidableEq

instance : Inhabited Strains := ⟨{ section_length := 0, strains := [] }⟩

/-- `base_aim_performance`: the cubic curve with its `max(.., 1)` floor. -/
def baseAimPerformance (aim_rating : ℚ) : ℚ :=
  let base := 5 * max (aim_rating / (675 / 10000)) 1 - 4
  base * base * base / 100000

/-- `base_speed_performance`: the cubic curve with its `max(.., 1)`
floor. -/
def baseSpeedPerformance (speed_rating : ℚ) : ℚ :=
  let base := 5 * max (speed_rating / (675 / 10000)) 1 - 4
  base * base * base / 100000

/-- `base_flashlight_performance`: quadratic when flashlight is active,
zero otherwise. -/
def baseFlashlightPerformance (fl : Bool) (flashlight_rating : ℚ) : ℚ :=
  if fl then flashlight_rating * flashlight_rating * 25 else 0

/-- `base_performance`: the 1.1-power sum of the three aspects. -/
def combinedBasePerformance (fops : FloatOps) (aim speed flash : ℚ) : ℚ :=
  fops.powf (fops.powf aim (11 / 10) + fops.powf speed (11 / 10) +
    fops.powf flash (11 / 10)) (10 / 11)

/-- `star_rating`: the final cube-root curve, short-circuited to exactly
zero when the combined base performance is at most 0.00001. -/
def starRatingOf (fops : FloatOps) (base_performance : ℚ) : ℚ :=
  if 1 / 100000 < base_performance then
    fops.cbrt (112 / 100) * (27 / 1000) *
      (fops.cbrt (100000 / fops.exp2 (10 / 11) * base_performance) + 4)
  else 0

/-- Indexing `skills[n]` (always in bounds in the source). -/
def getSkill (skills : List Skill) (n : ℕ) : Skill :=
  skills.getD n (Skill.new SkillKind.aim)

/-- `fn stars` with the `take` count already resolved. -/
def starsWithTake (ops : SkillOps) (fops : FloatOps) (map : Beatmap)
    (mods : ModsData) (take : ℕ) : Option DifficultyAttributes :=
  let map_attributes := mapAttributesWithMods map mods
  let od := odOf map mods
  if take < 2 then
    some { (default : DifficultyAttributes) with
      ar := map_attributes.ar
      hp := map_attributes.hp
      od := od }
  else
    match starsSkills ops fops map mods take with
    | none => none
    | some skills =>
      let aim_rating := fops.sqrt (Skill.difficulty_value
        (getSkill skills 0)) * DIFFICULTY_MULTIPLIER
      let speed_rating := if mods.rx then 0 else
        fops.sqrt (Skill.difficulty_value (getSkill skills 1)) *
          DIFFICULTY_MULTIPLIER
      let flashlight_rating := match skills[2]? with
        | some sk => fops.sqrt sk.difficulty_value * DIFFICULTY_MULTIPLIER
        | none => 0
      let base_performance := combinedBasePerformance fops
        (baseAimPerformance aim_rating) (baseSpeedPerformance speed_rating)
        (baseFlashlightPerformance mods.fl flashlight_rating)
      some { ar := map_attributes.ar
             hp := map_attributes.hp
             od := od
             aim_strain := aim_rating
             speed_strain := speed_rating
             flashlight_rating := flashlight_rating
             n_circles := map.n_circles
             n_sliders := map.n_sliders
             n_spinners := map.n_spinners
             stars := starRatingOf fops base_performance
             max_combo := maxComboOf map take }

/-- `fn stars`: star calculation for osu!standard maps.  `passed_objects`
truncates the raw note list; the source's panics (`unwrap` with fewer than
two surviving objects) are modelled by `none`. -/
def stars (ops : SkillOps) (fops : FloatOps) (map : Beatmap)
    (mods : ModsData) (passed_objects : Option ℕ) :
    Option DifficultyAttributes :=
  starsWithTake ops fops map mods
    (passed_objects.getD map.hit_objects.length)

/-- The preprocessed object stream of `strains` (all raw notes). -/
def strainsObjects (map : Beatmap) (mods : ModsData) : List OsuObject :=
  map.hit_objects.filterMap (OsuObject.ofRaw mods.hr)

/-- The stack resolution step of `strains`, selected by format version. -/
def strainsStacked (map : Beatmap) (mods : ModsData) :
    Option (List OsuObject) :=
  if 6 ≤ map.version then
    stacking (strainsObjects map mods) (strainsStackThreshold map mods)
  else
    some (old_stacking (strainsObjects map mods)
      (strainsStackThreshold map mods))

/-- The object stream `strains` feeds to the skills. -/
def strainsProcessed (map : Beatmap) (mods : ModsData) :
    Option (List OsuObject) :=
  (strainsStacked map mods).map (List.map
    (applyStackOffsetAndClock (mapAttributesWithMods map mods).clock_rate
      (scaleFactorOf map mods)))

/-- The skill states at the end of the `strains` evaluation loop. -/
def strainsSkills (ops : SkillOps) (fops : FloatOps) (map : Beatmap)
    (mods : ModsData) : Option (List Skill) :=
  (strainsProcessed map mods).bind
    (runSkills ops fops
      (initSkills mods (hitWindowOf map mods) (scalingFactorOf map mods))
      (scaleFactorOf map mods) (scalingFactorOf map mods))

/-- `fn strains`: same pipeline as `stars` but returning the per-section
combined strain peaks.  The pop/swap bookkeeping of the source amounts to
summing the aim, speed and (when present) flashlight peak sequences
pointwise via the nested zips. -/
def strains (ops : SkillOps) (fops : FloatOps) (map : Beatmap)
    (mods : ModsData) : Option Strains :=
  if map.hit_objects.length < 2 then some default
  else
    match strainsSkills ops fops map mods with
    | none => none
    | some [aimSk, speedSk] =>
      some { section_length := SECTION_LEN
             strains := (aimSk.strain_peaks.zip speedSk.strain_peaks).map
               (fun p => p.1 + p.2) }
    | some [aimSk, speedSk, flSk] =>
      some { section_length := SECTION_LEN
             strains := ((aimSk.strain_peaks.zip
               speedSk.strain_peaks).zip flSk.strain_peaks).map
               (fun p => p.1.1 + p.1.2 + p.2) }
    | some _ => none

/-- Trivial strain parameters used for concrete evaluations. -/
def trivOps : SkillOps :=
  { process_strain := fun _ _ _ => 0, section_baseline := fun _ _ _ => 0 }

/-- Trivial float operations satisfying the sign hypotheses of the real
`f32` operations. -/
def trivFops : FloatOps :=
  { sqrt := fun _ => 0, cbrt := fun _ => 0, powf := fun _ _ => 0,
    exp2 := fun _ => 1 }

/-- No modifiers, unit clock rate. -/
def noMods : ModsData :=
  { hr := false, ez := false, fl := false, rx := false, clock_rate := 1 }

/-- Hard rock only, unit clock rate. -/
def hrMods : ModsData :=
  { hr := true, ez := false, fl := false, rx := false, clock_rate := 1 }

/-- A valid raw circle at position `p` and time `t` worth one combo. -/
def rawCircle (p : Pos) (t : ℚ) : RawNote :=
  { kind := ObjKind.circle, time := t, pos := p, end_time := t, end_pos := p,
    valid := true, combo := 1 }

/-- An invalid raw slider (dropped by preprocessing). -/
def rawBadSlider (p : Pos) (t : ℚ) : RawNote :=
  { kind := ObjKind.slider, time := t, pos := p, end_time := t + 10,
    end_pos := p, valid := false, combo := 0 }

/-- Two raw notes of which the second is dropped by preprocessing: the
raw count 2 passes the `take < 2` guard but only one object survives. -/
def c1Map : Beatmap :=
  { hit_objects := [rawCircle ⟨100, 100⟩ 0, rawBadSlider ⟨200, 100⟩ 50],
    n_circles := 1, n_sliders := 1, n_spinners := 0, ar := 5, cs := 5,
    od := 5, hp := 5, stack_leniency := 1, version := 6 }

/-- Two overlapping circles 300 ms apart on an ar 10 map: under hard rock
`stars` caps `raw_ar` at 10 (stack threshold 450) and stacks the pair while
`strains` leaves `raw_ar` at 14 (stack threshold -150) and does not. -/
def c2Map : Beatmap :=
  { hit_objects := [rawCircle ⟨100, 100⟩ 0, rawCircle ⟨100, 100⟩ 300],
    n_circles := 2, n_sliders := 0, n_spinners := 0, ar := 10, cs := 4,
    od := 5, hp := 5, stack_leniency := 1, version := 6 }

/-- Three circles at far-apart positions at times 0, 400 and 800. -/
def c4Map : Beatmap :=
  { hit_objects := [rawCircle ⟨0, 0⟩ 0, rawCircle ⟨50, 0⟩ 400,
      rawCircle ⟨100, 0⟩ 800],
    n_circles := 3, n_sliders := 0, n_spinners := 0, ar := 5, cs := 5,
    od := 5, hp := 5, stack_leniency := 1, version := 6 }

/-- The map a parser would produce from only the first two raw notes of
`c4Map`: the note-type counts reflect the prefix. -/
def c4MapPre : Beatmap :=
  { hit_objects := [rawCircle ⟨0, 0⟩ 0, rawCircle ⟨50, 0⟩ 400],
    n_circles := 2, n_sliders := 0, n_spinners := 0, ar := 5, cs := 5,
    od := 5, hp := 5, stack_leniency := 1, version := 6 }

/-- Two circles at times 400 and 1600: three section boundaries lie between
the first and the second object. -/
def c6Map : Beatmap :=
  { hit_objects := [rawCircle ⟨0, 0⟩ 400, rawCircle ⟨50, 0⟩ 1600],
    n_circles := 2, n_sliders := 0, n_spinners := 0, ar := 5, cs := 5,
    od := 5, hp := 5, stack_leniency := 1, version := 6 }

/-- A slider followed by a circle sitting on its end position, within the
stack threshold. -/
def c5LegacyObjs : List OsuObject :=
  [mkSlider ⟨0, 0⟩ 0 ⟨50, 0⟩ 10, mkCircle ⟨50, 0⟩ 20]

/-- A slider whose end sits under a chain: circle `a` near the slider end
only, circle `w` near the end and near `c`, candidate circle `c` far from
the end.  The candidate keeps stack height 0, so a re-run re-applies the
slider offset to `a`. -/
def c5ModernObjs : List OsuObject :=
  [mkSlider ⟨50, 0⟩ 0 ⟨0, 0⟩ 5, mkCircle ⟨-1, 0⟩ 10, mkCircle ⟨2, 0⟩ 20,
    mkCircle ⟨4, 0⟩ 30]

/-- Three sliders chained head to tail: each slider's end position
coincides with the next slider's start position. -/
def sliderChainObjs : List OsuObject :=
  [mkSlider ⟨0, 0⟩ 0 ⟨10, 0⟩ 5, mkSlider ⟨10, 0⟩ 10 ⟨20, 0⟩ 15,
    mkSlider ⟨20, 0⟩ 20 ⟨30, 0⟩ 25]

/-- Three circles at one position with consecutive times within the
threshold. -/
def c3Objs (p : Pos) (t0 t1 t2 : ℚ) : List OsuObject :=
  [mkCircle p t0, mkCircle p t1, mkCircle p t2]

/-- The three-circle stack after resolution: heights 2, 1, 0. -/
def c3Resolved (p : Pos) (t0 t1 t2 : ℚ) : List OsuObject :=
  [{ mkCircle p t0 with stack_height := 2 },
    { mkCircle p t1 with stack_height := 1 }, mkCircle p t2]

/-- Relax modifier only, unit clock rate. -/
def rxMods : ModsData :=
  { hr := false, ez := false, fl := false, rx := true, clock_rate := 1 }

/-- The defaulted attributes returned for degenerate inputs on `c4Map`. -/
def c9Out : DifficultyAttributes :=
  { (default : DifficultyAttributes) with ar := 5, hp := 5, od := 5 }

/-- The skill states after evaluating two simultaneous circles in the
first section with the trivial strain parameters. -/
def c6WitnessSkills : List Skill :=
  [Skill.process trivOps (Skill.new SkillKind.aim)
      (DifficultyObject.new trivFops (mkCircle ⟨50, 0⟩ 0)
        (mkCircle ⟨0, 0⟩ 0) none none 1 1) |>.save_current_peak,
    Skill.process trivOps (Skill.new (SkillKind.speed 50))
      (DifficultyObject.new trivFops (mkCircle ⟨50, 0⟩ 0)
        (mkCircle ⟨0, 0⟩ 0) none none 1 1) |>.save_current_peak]

/-- Agreement of two objects on every field except the stack height. -/
def frameEq (a b : OsuObject) : Prop :=
  a.time = b.time ∧ a.end_time = b.end_time ∧ a.pos = b.pos ∧
    a.end_pos = b.end_pos ∧ a.kind = b.kind

/-- Same length, and per-position agreement on every field except the
stack height. -/
def framesEq (xs ys : List OsuObject) : Prop :=
  xs.length = ys.length ∧ ∀ i : ℕ, frameEq (getObj xs i) (getObj ys i)

theorem circle_ne_slider : ObjKind.circle ≠ ObjKind.slider := by decide

theorem circle_ne_spinner : ObjKind.circle ≠ ObjKind.spinner := by decide

theorem slider_ne_circle : ObjKind.slider ≠ ObjKind.circle := by decide

theorem slider_ne_spinner : ObjKind.slider ≠ ObjKind.spinner := by decide

theorem spinner_ne_circle : ObjKind.spinner ≠ ObjKind.circle := by decide

theorem spinner_ne_slider : ObjKind.spinner ≠ ObjKind.slider := by decide


theorem frameEq_refl (a : OsuObject) : frameEq a a :=
  ⟨rfl, rfl, rfl, rfl, rfl⟩

theorem frameEq_trans {a b c : OsuObject} (h1 : frameEq a b)
    (h2 : frameEq b c) : frameEq a c := by
  obtain ⟨u1, u2, u3, u4, u5⟩ := h1
  obtain ⟨v1, v2, v3, v4, v5⟩ := h2
  exact ⟨u1.trans v1, u2.trans v2, u3.trans v3, u4.trans v4, u5.trans v5⟩

theorem framesEq_refl (xs : List OsuObject) : framesEq xs xs :=
  ⟨rfl, fun i => frameEq_refl _⟩

theorem framesEq_trans {xs ys zs : List OsuObject} (h1 : framesEq xs ys)
    (h2 : framesEq ys zs) : framesEq xs zs :=
  ⟨h1.1.trans h2.1, fun i => frameEq_trans (h1.2 i) (h2.2 i)⟩

theorem setStack_length (xs : List OsuObject) (n : ℕ) (v : ℚ) :
    (setStack xs n v).length = xs.length := by
  induction xs generalizing n with
  | nil => rfl
  | cons x rest ih =>
    cases n with
    | zero => rfl
    | succ m => simpa [setStack] using ih m

theorem getObj_setStack (xs : List OsuObject) (n : ℕ) (v : ℚ) (i : ℕ) :
    frameEq (getObj xs i) (getObj (setStack xs n v) i) := by
  induction xs generalizing n i with
  | nil => exact frameEq_refl _
  | cons x rest ih =>
    cases n with
    | zero =>
      cases i with
      | zero => exact ⟨rfl, rfl, rfl, rfl, rfl⟩
      | succ j => exact frameEq_refl _
    | succ m =>
      cases i with
      | zero => exact frameEq_refl _
      | succ j => simpa [setStack, getObj] using ih m j

theorem framesEq_setStack (xs : List OsuObject) (n : ℕ) (v : ℚ) :
    framesEq xs (setStack xs n v) :=
  ⟨(setStack_length xs n v).symm, fun i => getObj_setStack xs n v i⟩

theorem framesEq_subStack (xs : List OsuObject) (n : ℕ) (d : ℚ) :
    framesEq xs (subStack xs n d) :=
  framesEq_setStack _ _ _

theorem framesEq_addStack (xs : List OsuObject) (n : ℕ) (d : ℚ) :
    framesEq xs (addStack xs n d) :=
  framesEq_setStack _ _ _

theorem framesEq_sliderOffsetLoop (n : ℕ) (offset : ℚ)
    (objs : List OsuObject) (j count : ℕ) :
    framesEq objs (sliderOffsetLoop n offset objs j count) := by
  induction count generalizing objs j with
  | zero => exact framesEq_refl _
  | succ c ih =>
    rw [sliderOffsetLoop]
    split
    · exact framesEq_trans (framesEq_subStack _ _ _) (ih _ _)
    · exact ih _ _

theorem framesEq_circleScan (thr : ℚ) (i : ℕ) (fuel : ℕ)
    (st : List OsuObject × ℕ) (objIdx : ℕ) :
    framesEq st.1 (circleScan thr i fuel st objIdx).1 := by
  induction fuel generalizing st objIdx with
  | zero => exact framesEq_refl _
  | succ n ih =>
    rw [circleScan]
    split
    · exact ih st objIdx
    · split
      · exact framesEq_refl _
      · split
        · split
          · exact framesEq_trans (framesEq_setStack _ _ _)
              (framesEq_sliderOffsetLoop _ _ _ _ _)
          · split
            · exact framesEq_trans (framesEq_setStack _ _ _)
                (framesEq_trans (framesEq_setStack _ _ _)
                  (ih (setStack (setStack st.1 n 0) n
                    ((getObj (setStack st.1 n 0) objIdx).stack_height + 1),
                      n) n))
            · exact framesEq_trans (framesEq_setStack _ _ _)
                (ih (setStack st.1 n 0, n) objIdx)
        · split
          · exact framesEq_sliderOffsetLoop _ _ _ _ _
          · split
            · exact framesEq_trans (framesEq_setStack _ _ _)
                (ih (setStack st.1 n
                  ((getObj st.1 objIdx).stack_height + 1), st.2) n)
            · exact ih st objIdx

theorem framesEq_sliderScan (thr : ℚ) (fuel : ℕ) (objs : List OsuObject)
    (objIdx : ℕ) : framesEq objs (sliderScan thr fuel objs objIdx) := by
  induction fuel generalizing objs objIdx with
  | zero => exact framesEq_refl _
  | succ n ih =>
    rw [sliderScan]
    split
    · exact ih _ _
    · split
      · exact framesEq_refl _
      · split
        · exact framesEq_trans (framesEq_setStack _ _ _) (ih _ _)
        · exact ih _ _

theorem framesEq_stackingStep (thr : ℚ) (st : List OsuObject × ℕ)
    (i : ℕ) : framesEq st.1 (stackingStep thr st i).1 := by
  rw [stackingStep]
  split
  · exact framesEq_refl _
  · split
    · exact framesEq_circleScan _ _ _ _ _
    · split
      · exact framesEq_sliderScan _ _ _ _
      · exact framesEq_refl _

theorem framesEq_stackingRun (thr : ℚ) (fuel : ℕ)
    (st : List OsuObject × ℕ) : framesEq st.1 (stackingRun thr fuel st).1 := by
  induction fuel generalizing st with
  | zero => exact framesEq_refl _
  | succ n ih =>
    rw [stackingRun]
    exact framesEq_trans (framesEq_stackingStep _ _ _) (ih _)

theorem framesEq_oldStackingInner (thr : ℚ) (i : ℕ) (endPos : Pos)
    (fuel j : ℕ) (objs : List OsuObject) (startTime sliderStack : ℚ) :
    framesEq objs
      (oldStackingInner thr i endPos fuel j objs startTime sliderStack) := by
  induction fuel generalizing j objs startTime sliderStack with
  | zero => exact framesEq_refl _
  | succ n ih =>
    rw [oldStackingInner]
    split
    · exact framesEq_refl _
    · split
      · exact framesEq_trans (framesEq_addStack _ _ _) (ih _ _ _ _)
      · split
        · exact framesEq_trans (framesEq_subStack _ _ _) (ih _ _ _ _)
        · exact ih _ _ _ _

theorem framesEq_oldStackingRun (thr : ℚ) (len fuel i : ℕ)
    (objs : List OsuObject) :
    framesEq objs (oldStackingRun thr len fuel i objs) := by
  induction fuel generalizing i objs with
  | zero => exact framesEq_refl _
  | succ n ih =>
    rw [oldStackingRun]
    refine framesEq_trans ?_ (ih _ _)
    split
    · exact framesEq_refl _
    · exact framesEq_oldStackingInner _ _ _ _ _ _ _ _

theorem framesEq_old_stacking (objs : List OsuObject) (thr : ℚ) :
    framesEq objs (old_stacking objs thr) :=
  framesEq_oldStackingRun _ _ _ _ _

theorem framesEq_stacking {objs out : List OsuObject} {thr : ℚ}
    (h : stacking objs thr = some out) : framesEq objs out := by
  cases objs with
  | nil => simp [stacking] at h
  | cons x rest =>
    have h2 : out = (stackingRun thr ((x :: rest).length - 1)
        (x :: rest, 0)).1 := by
      simpa [stacking] using h.symm
    rw [h2]
    exact framesEq_stackingRun thr ((x :: rest).length - 1) (x :: rest, 0)

theorem c3_stacking_eval (p : Pos) (t0 t1 t2 thr : ℚ)
    (h01 : t1 - t0 ≤ thr) (h12 : t2 - t1 ≤ thr) :
    stacking (c3Objs p t0 t1 t2) thr = some (c3Resolved p t0 t1 t2) := by
  have n1 : ¬ thr < t2 - t1 := not_lt.2 h12
  have n2 : ¬ thr < t1 - t0 := not_lt.2 h01
  norm_num [stacking, stackingRun, stackingStep, circleScan, sliderScan,
    sliderOffsetLoop, getObj, setStack, Pos.closerThan, Pos.distSq,
    mkCircle, STACK_DISTANCE, c3Objs, OsuObject.is_circle,
    OsuObject.is_slider, OsuObject.is_spinner, circle_ne_slider,
    circle_ne_spinner, slider_ne_circle, slider_ne_spinner,
    spinner_ne_circle, spinner_ne_slider, abs_pos, n1, n2, c3Resolved]

theorem c3_old_stacking_eval (p : Pos) (t0 t1 t2 thr : ℚ)
    (h01 : t1 - t0 ≤ thr) (h12 : t2 - t1 ≤ thr) :
    old_stacking (c3Objs p t0 t1 t2) thr = c3Resolved p t0 t1 t2 := by
  have m1 : ¬ t0 < t1 - thr := not_lt.2 (by linarith)
  have m2 : ¬ t1 < t2 - thr := not_lt.2 (by linarith)
  norm_num [old_stacking, oldStackingRun, oldStackingInner, getObj,
    setStack, addStack, subStack, Pos.closerThan, Pos.distSq, mkCircle,
    STACK_DISTANCE, c3Objs, OsuObject.is_slider, circle_ne_slider,
    circle_ne_spinner, slider_ne_circle, slider_ne_spinner,
    spinner_ne_circle, spinner_ne_slider, m1, m2, c3Resolved]

theorem c3_stacking_again (p : Pos) (t0 t1 t2 thr : ℚ)
    (h01 : t1 - t0 ≤ thr) (h12 : t2 - t1 ≤ thr) :
    stacking (c3Resolved p t0 t1 t2) thr = some (c3Resolved p t0 t1 t2) := by
  have n1 : ¬ thr < t2 - t1 := not_lt.2 h12
  have n2 : ¬ thr < t1 - t0 := not_lt.2 h01
  norm_num [stacking, stackingRun, stackingStep, circleScan, sliderScan,
    sliderOffsetLoop, getObj, setStack, Pos.closerThan, Pos.distSq,
    mkCircle, STACK_DISTANCE, c3Resolved, OsuObject.is_circle,
    OsuObject.is_slider, OsuObject.is_spinner, circle_ne_slider,
    circle_ne_spinner, slider_ne_circle, slider_ne_spinner,
    spinner_ne_circle, spinner_ne_slider, abs_pos, n1, n2]

theorem c3_old_stacking_again (p : Pos) (t0 t1 t2 thr : ℚ)
    (h01 : t1 - t0 ≤ thr) (h12 : t2 - t1 ≤ thr) :
    old_stacking (c3Resolved p t0 t1 t2) thr = c3Resolved p t0 t1 t2 := by
  have m2 : ¬ t1 < t2 - thr := not_lt.2 (by linarith)
  norm_num [old_stacking, oldStackingRun, oldStackingInner, getObj,
    setStack, addStack, subStack, Pos.closerThan, Pos.distSq, mkCircle,
    STACK_DISTANCE, c3Resolved, OsuObject.is_slider, circle_ne_slider,
    circle_ne_spinner, slider_ne_circle, slider_ne_spinner,
    spinner_ne_circle, spinner_ne_slider, m2]

/-- The slider-candidate scan hops its reference pointer to each newly
stacked slider (`obj_i_idx = n` in the source), so a head-to-tail slider
chain stacks transitively: heights 2, 1, 0. -/
theorem slider_chain_stacking_eval :
    (stacking sliderChainObjs 100).map stackHeights = some [2, 1, 0] := by
  norm_num [stacking, stackingRun, stackingStep, circleScan, sliderScan,
    sliderOffsetLoop, getObj, setStack, addStack, subStack, Pos.closerThan,
    Pos.distSq, mkSlider, STACK_DISTANCE, sliderChainObjs, stackHeights,
    OsuObject.is_circle, OsuObject.is_slider, OsuObject.is_spinner,
    circle_ne_slider, circle_ne_spinner, slider_ne_circle,
    slider_ne_spinner, spinner_ne_circle, spinner_ne_slider, abs_pos]

/-- Claim C3: for three circles at one position with consecutive times
within the stack threshold, the resolvers do NOT produce heights 1, 2, 3:
at position (0, 0) with times 0, 10, 20 and threshold 100 both algorithms
yield heights 2, 1, 0. -/
theorem claim_C3_counterexample :
    (stacking (c3Objs ⟨0, 0⟩ 0 10 20) 100).map stackHeights ≠
        some [1, 2, 3] ∧
      stackHeights (old_stacking (c3Objs ⟨0, 0⟩ 0 10 20) 100) ≠
        [1, 2, 3] := by
  rw [c3_stacking_eval ⟨0, 0⟩ 0 10 20 100 (by norm_num) (by norm_num),
    c3_old_stacking_eval ⟨0, 0⟩ 0 10 20 100 (by norm_num) (by norm_num)]
  norm_num [c3Resolved, stackHeights, mkCircle]

/-- Claim C3 (amended): for every position, times `t0, t1, t2` each within
the stack threshold of the previous one, both the modern and the legacy
resolver give the three circles the stack heights 2, 1, 0: strictly
decreasing in time order, with the earliest circle highest and the latest
keeping height 0. -/
theorem claim_C3_amended (p : Pos) (t0 t1 t2 thr : ℚ)
    (h01 : t1 - t0 ≤ thr) (h12 : t2 - t1 ≤ thr) :
    (stacking (c3Objs p t0 t1 t2) thr).map stackHeights = some [2, 1, 0] ∧
      stackHeights (old_stacking (c3Objs p t0 t1 t2) thr) = [2, 1, 0] := by
  rw [c3_stacking_eval p t0 t1 t2 thr h01 h12,
    c3_old_stacking_eval p t0 t1 t2 thr h01 h12]
  norm_num [c3Resolved, stackHeights, mkCircle]

/-- Witness for claim C3 at position (0, 0), times 0, 10, 20, threshold
100. -/
theorem claim_C3_witness :
    (stacking (c3Objs ⟨0, 0⟩ 0 10 20) 100).map stackHeights =
        some [2, 1, 0] ∧
      stackHeights (old_stacking (c3Objs ⟨0, 0⟩ 0 10 20) 100) =
        [2, 1, 0] :=
  claim_C3_amended ⟨0, 0⟩ 0 10 20 100 (by norm_num) (by norm_num)

/-- Claim C5: re-running a resolver on its own output can change stack
heights.  Legacy: a slider followed by a circle on its end position is
pushed further down on every re-run.  Modern: a candidate circle that keeps
height 0 re-applies the slider-end offset to objects its chain does not
rewrite. -/
theorem claim_C5_counterexample :
    ¬((stacking c5ModernObjs 1000).bind (fun r => stacking r 1000) =
        stacking c5ModernObjs 1000) ∧
      ¬(old_stacking (old_stacking c5LegacyObjs 1000) 1000 =
        old_stacking c5LegacyObjs 1000) := by
  constructor
  · norm_num [stacking, stackingRun, stackingStep, circleScan, sliderScan,
      sliderOffsetLoop, getObj, setStack, addStack, subStack, Pos.closerThan,
      Pos.distSq, mkCircle, mkSlider, STACK_DISTANCE, OsuObject.is_slider,
      OsuObject.is_circle, OsuObject.is_spinner, c5ModernObjs,
      circle_ne_slider, circle_ne_spinner, slider_ne_circle,
      slider_ne_spinner, spinner_ne_circle, spinner_ne_slider, abs_pos,
      Option.some_bind, Option.none_bind]
  · norm_num [old_stacking, oldStackingRun, oldStackingInner, getObj,
      setStack, addStack, subStack, Pos.closerThan, Pos.distSq, mkCircle,
      mkSlider, STACK_DISTANCE, OsuObject.is_slider, c5LegacyObjs,
      circle_ne_slider, circle_ne_spinner, slider_ne_circle,
      slider_ne_spinner, spinner_ne_circle, spinner_ne_slider]

/-- Claim C5 (amended): idempotence fails in general (see the
counterexample), but on pure circle stacks such as the three-circle linear
stack re-running either resolver with the same threshold leaves every stack
height unchanged. -/
theorem claim_C5_amended (p : Pos) (t0 t1 t2 thr : ℚ)
    (h01 : t1 - t0 ≤ thr) (h12 : t2 - t1 ≤ thr) :
    ((stacking (c3Objs p t0 t1 t2) thr).bind (fun r => stacking r thr) =
        stacking (c3Objs p t0 t1 t2) thr) ∧
      old_stacking (old_stacking (c3Objs p t0 t1 t2) thr) thr =
        old_stacking (c3Objs p t0 t1 t2) thr := by
  constructor
  · rw [c3_stacking_eval p t0 t1 t2 thr h01 h12, Option.some_bind]
    exact c3_stacking_again p t0 t1 t2 thr h01 h12
  · rw [c3_old_stacking_eval p t0 t1 t2 thr h01 h12]
    exact c3_old_stacking_again p t0 t1 t2 thr h01 h12

/-- Witness for claim C5 at position (0, 0), times 0, 10, 20, threshold
100. -/
theorem claim_C5_witness :
    ((stacking (c3Objs ⟨0, 0⟩ 0 10 20) 100).bind
        (fun r => stacking r 100) = stacking (c3Objs ⟨0, 0⟩ 0 10 20) 100) ∧
      old_stacking (old_stacking (c3Objs ⟨0, 0⟩ 0 10 20) 100) 100 =
        old_stacking (c3Objs ⟨0, 0⟩ 0 10 20) 100 :=
  claim_C5_amended ⟨0, 0⟩ 0 10 20 100 (by norm_num) (by norm_num)

/-- Claim C10: both resolvers write only the stack height: the length and
order of the sequence and every object's time, end time, position, end
position and kind are unchanged (the modern resolver returns a result
whenever the input is nonempty; `none` models the source's panic on an
empty slice). -/
theorem claim_C10_frame :
    (∀ (objs : List OsuObject) (thr : ℚ) (out : List OsuObject),
        stacking objs thr = some out → framesEq objs out) ∧
      ∀ (objs : List OsuObject) (thr : ℚ),
        framesEq objs (old_stacking objs thr) :=
  ⟨fun _ _ _ h => framesEq_stacking h,
    fun objs thr => framesEq_old_stacking objs thr⟩

/-- Witness for claim C10 on the concrete three-circle stack. -/
theorem claim_C10_witness :
    framesEq (c3Objs ⟨0, 0⟩ 0 10 20) (c3Resolved ⟨0, 0⟩ 0 10 20) :=
  claim_C10_frame.1 (c3Objs ⟨0, 0⟩ 0 10 20) 100 (c3Resolved ⟨0, 0⟩ 0 10 20)
    (c3_stacking_eval ⟨0, 0⟩ 0 10 20 100 (by norm_num) (by norm_num))

/-- Claim C7: in both `stars` and `strains` the offset/clock transformation
is a single map applied strictly after the selected stacking variant; the
post pass divides the time by the clock rate and offsets the position by
`stack_height * scale_factor`; and the resolver input is the raw
preprocessed stream whose times and positions the resolver leaves untouched
(so stacking always runs on unscaled, unmodified values). -/
theorem claim_C7_post_pass :
    (∀ (map : Beatmap) (mods : ModsData) (take : ℕ)
        (stacked : List OsuObject),
        starsStacked map mods take = some stacked →
        starsProcessed map mods take = some (stacked.map
            (applyStackOffsetAndClock
              (mapAttributesWithMods map mods).clock_rate
              (scaleFactorOf map mods))) ∧
          framesEq (starsObjects map mods take) stacked) ∧
      (∀ (map : Beatmap) (mods : ModsData) (stacked : List OsuObject),
        strainsStacked map mods = some stacked →
        strainsProcessed map mods = some (stacked.map
            (applyStackOffsetAndClock
              (mapAttributesWithMods map mods).clock_rate
              (scaleFactorOf map mods))) ∧
          framesEq (strainsObjects map mods) stacked) ∧
      ∀ (cr sf : ℚ) (h : OsuObject),
        applyStackOffsetAndClock cr sf h =
          { h with
            time := h.time / cr
            pos := h.pos.add (Pos.single (h.stack_height * sf)) } := by
  refine ⟨fun map mods take stacked h => ⟨?_, ?_⟩,
    fun map mods stacked h => ⟨?_, ?_⟩, fun cr sf h => rfl⟩
  · simp [starsProcessed, h]
  · by_cases hv : 6 ≤ map.version
    · exact framesEq_stacking (by simpa [starsStacked, hv] using h)
    · have h2 : old_stacking (starsObjects map mods take)
          (starsStackThreshold map mods) = stacked := by
        simpa [starsStacked, hv] using h
      rw [← h2]
      exact framesEq_old_stacking _ _
  · simp [strainsProcessed, h]
  · by_cases hv : 6 ≤ map.version
    · exact framesEq_stacking (by simpa [strainsStacked, hv] using h)
    · have h2 : old_stacking (strainsObjects map mods)
          (strainsStackThreshold map mods) = stacked := by
        simpa [strainsStacked, hv] using h
      rw [← h2]
      exact framesEq_old_stacking _ _

/-- Witness for claim C7 on a concrete three-object map that stacking
leaves unchanged. -/
theorem claim_C7_witness :
    starsProcessed c4Map noMods 3 = some ((starsObjects c4Map noMods 3).map
        (applyStackOffsetAndClock
          (mapAttributesWithMods c4Map noMods).clock_rate
          (scaleFactorOf c4Map noMods))) ∧
      framesEq (starsObjects c4Map noMods 3) (starsObjects c4Map noMods 3) :=
  claim_C7_post_pass.1 c4Map noMods 3 (starsObjects c4Map noMods 3)
    (by norm_num [starsStacked, starsObjects, starsRawAr,
      starsStackThreshold, stacking, stackingRun, stackingStep, circleScan,
      sliderScan, sliderOffsetLoop, getObj, setStack, Pos.closerThan,
      Pos.distSq, STACK_DISTANCE, c4Map, noMods, rawCircle, flipY,
      OsuObject.ofRaw, difficulty_range_ar, difficulty_range, OSU_AR_MAX,
      OSU_AR_AVG, OSU_AR_MIN, OsuObject.is_circle, OsuObject.is_slider,
      OsuObject.is_spinner, circle_ne_slider, circle_ne_spinner,
      slider_ne_circle, slider_ne_spinner, spinner_ne_circle,
      spinner_ne_slider, abs_pos, List.filterMap_cons, List.filterMap_nil,
      List.take_succ_cons, List.take_zero, List.take_nil])

/-- Claim C9: maps with format version at least 6 use the modern stacking
algorithm and earlier versions the legacy one, in both `stars` and
`strains`; and under the relax modifier the returned speed rating is
exactly zero. -/
theorem claim_C9_selection :
    (∀ (map : Beatmap) (mods : ModsData) (take : ℕ), 6 ≤ map.version →
        starsStacked map mods take =
            stacking (starsObjects map mods take)
              (starsStackThreshold map mods) ∧
          strainsStacked map mods =
            stacking (strainsObjects map mods)
              (strainsStackThreshold map mods)) ∧
      (∀ (map : Beatmap) (mods : ModsData) (take : ℕ), map.version < 6 →
        starsStacked map mods take =
            some (old_stacking (starsObjects map mods take)
              (starsStackThreshold map mods)) ∧
          strainsStacked map mods =
            some (old_stacking (strainsObjects map mods)
              (strainsStackThreshold map mods))) ∧
      ∀ (ops : SkillOps) (fops : FloatOps) (map : Beatmap)
        (mods : ModsData) (p : Option ℕ) (out : DifficultyAttributes),
        mods.rx = true → stars ops fops map mods p = some out →
        out.speed_strain = 0 := by
  refine ⟨fun map mods take hv => ⟨by simp [starsStacked, hv],
      by simp [strainsStacked, hv]⟩,
    fun map mods take hv => ⟨by simp [starsStacked, not_le.2 hv],
      by simp [strainsStacked, not_le.2 hv]⟩,
    fun ops fops map mods p out hrx h => ?_⟩
  unfold stars starsWithTake at h
  by_cases ht : p.getD map.hit_objects.length < 2
  · rw [if_pos ht] at h
    obtain rfl := Option.some.inj h
    rfl
  · rw [if_neg ht] at h
    cases hs : starsSkills ops fops map mods
        (p.getD map.hit_objects.length) with
    | none => rw [hs] at h; cases h
    | some sk =>
      rw [hs] at h
      obtain rfl := Option.some.inj h
      simp [hrx]

/-- Witness for claim C9: concrete version selection on `c4Map` and a
concrete relax run whose speed rating is zero. -/
theorem claim_C9_witness :
    (starsStacked c4Map noMods 3 =
        stacking (starsObjects c4Map noMods 3)
          (starsStackThreshold c4Map noMods) ∧
      strainsStacked c4Map noMods =
        stacking (strainsObjects c4Map noMods)
          (strainsStackThreshold c4Map noMods)) ∧
      c9Out.speed_strain = 0 :=
  ⟨claim_C9_selection.1 c4Map noMods 3 (by norm_num [c4Map]),
    claim_C9_selection.2.2 trivOps trivFops c4Map rxMods (some 1) c9Out rfl
      (by norm_num [stars, starsWithTake, mapAttributesWithMods,
        adjustRating, adjustCs, odOf, hitWindowOf, difficulty_range_od,
        difficulty_range, OSU_OD_MAX, OSU_OD_AVG, OSU_OD_MIN, c4Map, rxMods,
        c9Out, Option.getD])⟩

/-- Claim C1: the degenerate-input guard fires on the raw taken note count:
when it is below 2 the function returns defaulted attributes carrying the
modifier-adjusted ar/hp/od; but when two raw notes are taken and
preprocessing drops one, the evaluation loop panics (modelled by `none`)
instead of returning defaulted attributes. -/
theorem claim_C1_guard_and_panic :
    (∀ (ops : SkillOps) (fops : FloatOps) (map : Beatmap) (mods : ModsData)
        (p : Option ℕ), p.getD map.hit_objects.length < 2 →
        stars ops fops map mods p =
          some { (default : DifficultyAttributes) with
            ar := (mapAttributesWithMods map mods).ar
            hp := (mapAttributesWithMods map mods).hp
            od := odOf map mods }) ∧
      stars trivOps trivFops c1Map noMods none = none := by
  constructor
  · intro ops fops map mods p hp2
    simp only [stars, starsWithTake, if_pos hp2]
  · norm_num [stars, starsWithTake, starsSkills, starsProcessed,
      starsStacked, starsObjects, starsRawAr, starsStackThreshold, scaleOf,
      radiusOf, scalingFactorOf, scaleFactorOf, mapAttributesWithMods,
      adjustRating, adjustCs, flipY, OsuObject.ofRaw, difficulty_range,
      difficulty_range_ar, difficulty_range_od, OSU_AR_MAX, OSU_AR_AVG,
      OSU_AR_MIN, OSU_OD_MAX, OSU_OD_AVG, OSU_OD_MIN, PLAYFIELD_HEIGHT,
      OBJECT_RADIUS, NORMALIZED_RADIUS, hitWindowOf, odOf, initSkills,
      runSkills, stacking, stackingRun, stackingStep, circleScan, sliderScan,
      sliderOffsetLoop, getObj, setStack, addStack, subStack, Pos.closerThan,
      Pos.distSq, STACK_DISTANCE, applyStackOffsetAndClock, c1Map, noMods,
      rawCircle, rawBadSlider, trivOps, trivFops, OsuObject.is_circle,
      OsuObject.is_slider, OsuObject.is_spinner, circle_ne_slider,
      circle_ne_spinner, slider_ne_circle, slider_ne_spinner,
      spinner_ne_circle, spinner_ne_slider, abs_pos, List.filterMap_cons,
      List.filterMap_nil, List.take_succ_cons, List.take_zero, List.take_nil,
      Option.map_some', Option.map_none', Option.some_bind, Option.none_bind,
      List.length_cons, List.length_nil]

/-- Witness for claim C1 at a one-object cutoff on the concrete map. -/
theorem claim_C1_witness :
    stars trivOps trivFops c1Map noMods (some 1) =
      some { (default : DifficultyAttributes) with
        ar := (mapAttributesWithMods c1Map noMods).ar
        hp := (mapAttributesWithMods c1Map noMods).hp
        od := odOf c1Map noMods } :=
  claim_C1_guard_and_panic.1 trivOps trivFops c1Map noMods (some 1)
    (by norm_num [Option.getD])

/-- Claim C4: the output note-type counts always come from the full map's
stored totals, so a cutoff run differs from evaluating the prefix map whose
counts a parser would derive from the first two notes alone. -/
theorem claim_C4_counterexample :
    stars trivOps trivFops c4Map noMods (some 2) ≠
      stars trivOps trivFops c4MapPre noMods none := by
  norm_num [stars, starsWithTake, starsSkills, starsProcessed, starsStacked,
    starsObjects, starsRawAr, starsStackThreshold, scaleOf, radiusOf,
    scalingFactorOf, scaleFactorOf, mapAttributesWithMods, adjustRating,
    adjustCs, flipY, OsuObject.ofRaw, difficulty_range, difficulty_range_ar,
    difficulty_range_od, OSU_AR_MAX, OSU_AR_AVG, OSU_AR_MIN, OSU_OD_MAX,
    OSU_OD_AVG, OSU_OD_MIN, PLAYFIELD_HEIGHT, OBJECT_RADIUS,
    NORMALIZED_RADIUS, hitWindowOf, odOf, initSkills, runSkills, stacking,
    stackingRun, stackingStep, circleScan, sliderScan, sliderOffsetLoop,
    getObj, setStack, addStack, subStack, Pos.closerThan, Pos.distSq,
    STACK_DISTANCE, applyStackOffsetAndClock, Pos.add, Pos.single, c4Map,
    c4MapPre, noMods, rawCircle, trivOps, trivFops, OsuObject.is_circle,
    OsuObject.is_slider, OsuObject.is_spinner, circle_ne_slider,
    circle_ne_spinner, slider_ne_circle, slider_ne_spinner,
    spinner_ne_circle, spinner_ne_slider, abs_pos, maxComboOf, getSkill,
    Skill.difficulty_value, weightedPeakSum, sortPeaksDesc, insertPeakDesc,
    DECAY_WEIGHT, baseAimPerformance, baseSpeedPerformance,
    baseFlashlightPerformance, combinedBasePerformance, starRatingOf,
    List.filterMap_cons, List.filterMap_nil,
    List.take_succ_cons, List.take_zero, List.take_nil, List.zip_cons_cons,
    List.zip_nil_right, List.zip_nil_left, Option.map_some', Option.map_none',
    Option.some_bind, Option.none_bind, List.foldl_cons, List.foldl_nil,
    List.filter_cons, List.filter_nil, Int.ceil_one, Int.ceil_zero,
    Int.ceil_ofNat, Int.ceil_intCast, List.getD_cons_zero,
    List.getD_cons_succ, List.getD_nil, List.length_cons, List.length_nil,
    qCeil, sectionSteps, runSections, crossSections, evalStep,
    DifficultyObject.new, Skill.process, Skill.save_current_peak,
    Skill.start_new_section_from, Skill.new, SECTION_LEN, MIN_STRAIN_TIME,
    DIFFICULTY_MULTIPLIER]

/-- Claim C4 (amended): with the stored scalar attributes and type counts
kept identical, evaluating with `passed_objects = some n` (for `n` at most
the note count) agrees with evaluating the map whose note list is the
prefix of length `n`: every output field is derived from the first `n`
notes, except that the type counts always reflect the stored full-map
totals. -/
theorem claim_C4_amended (ops : SkillOps) (fops : FloatOps) (map : Beatmap)
    (mods : ModsData) (n : ℕ) (h : n ≤ map.hit_objects.length) :
    stars ops fops { map with hit_objects := map.hit_objects.take n } mods
        none = stars ops fops map mods (some n) := by
  unfold stars
  simp only [Option.getD]
  rw [show ({ map with hit_objects := map.hit_objects.take n } :
      Beatmap).hit_objects.length = n by
    simp [List.length_take, min_eq_left h]]
  simp only [starsWithTake, starsSkills, starsProcessed, starsStacked,
    starsObjects, starsRawAr, starsStackThreshold, scaleOf, radiusOf,
    scalingFactorOf, scaleFactorOf, mapAttributesWithMods, adjustRating,
    adjustCs, hitWindowOf, odOf, maxComboOf, initSkills, List.take_take,
    min_self]

/-- Witness for claim C4 with a cutoff of two notes on the concrete
three-note map. -/
theorem claim_C4_witness :
    stars trivOps trivFops
        { c4Map with hit_objects := c4Map.hit_objects.take 2 } noMods none =
      stars trivOps trivFops c4Map noMods (some 2) :=
  claim_C4_amended trivOps trivFops c4Map noMods 2 (by norm_num [c4Map])

theorem sectionSteps_eq_zero {t se : ℚ} (h : t ≤ se) :
    sectionSteps t se = 0 := by
  unfold sectionSteps
  have h400 : (0 : ℚ) < SECTION_LEN := by norm_num [SECTION_LEN]
  have hd : (t - se) / SECTION_LEN ≤ 0 :=
    div_nonpos_iff.2 (Or.inr ⟨sub_nonpos.2 h, h400.le⟩)
  have hc : ⌈(t - se) / SECTION_LEN⌉ ≤ 0 :=
    Int.ceil_le.2 (by exact_mod_cast hd)
  exact Int.toNat_of_nonpos hc

theorem crossSections_of_le (ops : SkillOps) (save : Bool) {t : ℚ}
    (skills : List Skill) {se : ℚ} (h : t ≤ se) :
    crossSections ops save t skills se = (skills, se) := by
  unfold crossSections
  rw [sectionSteps_eq_zero h]
  rfl

theorem initSkills_peaks (mods : ModsData) (hw scf : ℚ) :
    ∀ s ∈ initSkills mods hw scf, s.strain_peaks = [] := by
  intro s hs
  unfold initSkills at hs
  rw [List.mem_append] at hs
  rcases hs with hs | hs
  · simp only [List.mem_cons, List.mem_singleton, List.not_mem_nil,
      or_false] at hs
    rcases hs with rfl | rfl <;> rfl
  · by_cases hfl : mods.fl = true
    · rw [if_pos hfl] at hs
      simp only [List.mem_singleton] at hs
      subst hs
      rfl
    · rw [if_neg hfl] at hs
      simp at hs

theorem foldl_evalStep_invariant (ops : SkillOps) (fops : FloatOps)
    (sf scf : ℚ) (rest : List OsuObject) (st : EvalState)
    (hti : ∀ o ∈ rest, o.time ≤ st.section_end)
    (hpk : ∀ s ∈ st.skills, s.strain_peaks = []) :
    (∀ s ∈ (rest.foldl (evalStep ops fops sf scf) st).skills,
        s.strain_peaks = []) ∧
      (rest.foldl (evalStep ops fops sf scf) st).section_end =
        st.section_end := by
  induction rest generalizing st with
  | nil => exact ⟨hpk, rfl⟩
  | cons o rest ih =>
    rw [List.foldl_cons]
    have hcross : crossSections ops true o.time st.skills st.section_end =
        (st.skills, st.section_end) :=
      crossSections_of_le ops true st.skills (hti o (by simp))
    have hstep : evalStep ops fops sf scf st o =
        { skills := st.skills.map (fun s => Skill.process ops s
            (DifficultyObject.new fops o st.prev st.prev_vals st.prev_prev
              sf scf))
          section_end := st.section_end
          prev_prev := some st.prev
          prev := o
          prev_vals := some ((DifficultyObject.new fops o st.prev
              st.prev_vals st.prev_prev sf scf).jump_dist,
            (DifficultyObject.new fops o st.prev st.prev_vals st.prev_prev
              sf scf).strain_time) } := by
      simp only [evalStep]
      rw [show (DifficultyObject.new fops o st.prev st.prev_vals
          st.prev_prev sf scf).base.time = o.time from rfl, hcross]
    rw [hstep]
    refine ih _ (fun o2 ho2 => by simpa using hti o2 (by simp [ho2])) ?_
    intro s hs
    simp only [List.mem_map] at hs
    obtain ⟨s0, hs0, rfl⟩ := hs
    exact hpk s0 hs0

/-- Claim C6: on a two-object map whose second object lies three section
boundaries after the first, the claim predicts 3 + 1 = 4 committed peaks
per skill, but the loop commits exactly one: the boundary crossings before
the second object open sections without committing. -/
theorem claim_C6_counterexample :
    (starsSkills trivOps trivFops c6Map noMods 2).map
        (List.map (fun s => s.strain_peaks.length)) = some [1, 1] ∧
      (starsSkills trivOps trivFops c6Map noMods 2).map
        (List.map (fun s => s.strain_peaks.length)) ≠ some [4, 4] := by
  have he : (starsSkills trivOps trivFops c6Map noMods 2).map
      (List.map (fun s => s.strain_peaks.length)) = some [1, 1] := by
    norm_num [starsSkills, starsProcessed, starsStacked,
      starsObjects, starsRawAr, starsStackThreshold, scaleOf, radiusOf,
      scalingFactorOf, scaleFactorOf, mapAttributesWithMods, adjustRating,
      adjustCs, flipY, OsuObject.ofRaw, difficulty_range,
      difficulty_range_ar, difficulty_range_od, OSU_AR_MAX, OSU_AR_AVG,
      OSU_AR_MIN, OSU_OD_MAX, OSU_OD_AVG, OSU_OD_MIN, PLAYFIELD_HEIGHT,
      OBJECT_RADIUS, NORMALIZED_RADIUS, hitWindowOf, odOf, initSkills,
      runSkills, stacking, stackingRun, stackingStep, circleScan,
      sliderScan, sliderOffsetLoop, getObj, setStack, addStack, subStack,
      Pos.closerThan, Pos.distSq, STACK_DISTANCE, applyStackOffsetAndClock,
      Pos.add, Pos.single, c6Map, noMods, rawCircle, trivOps, trivFops,
      OsuObject.is_circle, OsuObject.is_slider, OsuObject.is_spinner,
      circle_ne_slider, circle_ne_spinner, slider_ne_circle,
      slider_ne_spinner, spinner_ne_circle, spinner_ne_slider, abs_pos,
      List.filterMap_cons, List.filterMap_nil, List.take_succ_cons,
      List.take_zero, List.take_nil, Option.map_some', Option.map_none',
      Option.some_bind, Option.none_bind, List.foldl_cons, List.foldl_nil,
      Int.ceil_one, Int.ceil_zero, Int.ceil_ofNat, Int.ceil_intCast,
      List.getD_cons_zero, List.getD_cons_succ, List.getD_nil,
      List.length_cons, List.length_nil, qCeil, sectionSteps, runSections,
      crossSections, evalStep, DifficultyObject.new, Skill.process,
      Skill.save_current_peak, Skill.start_new_section_from, Skill.new,
      SECTION_LEN, MIN_STRAIN_TIME]
  exact ⟨he, by rw [he]; norm_num⟩

/-- Claim C6 (amended): boundary crossings from the third object on commit
one peak per skill, crossings before the second object only open sections,
and one final commit always happens; hence when every object lies within
the first section (at or before the boundary anchored at the ceiling of
the first object's time), every skill commits exactly one peak. -/
theorem claim_C6_amended (ops : SkillOps) (fops : FloatOps)
    (mods : ModsData) (hw scf sf : ℚ) (o1 o2 : OsuObject)
    (rest : List OsuObject) (out : List Skill)
    (hrun : runSkills ops fops (initSkills mods hw scf) sf scf
        (o1 :: o2 :: rest) = some out)
    (hin : ∀ o ∈ o1 :: o2 :: rest,
        o.time ≤ qCeil (o1.time / SECTION_LEN) * SECTION_LEN) :
    ∀ s ∈ out, s.strain_peaks.length = 1 := by
  simp only [runSkills] at hrun
  rw [show (DifficultyObject.new fops o2 o1 none none sf scf).base.time =
      o2.time from rfl] at hrun
  rw [crossSections_of_le ops false (initSkills mods hw scf)
      (hin o2 (by simp))] at hrun
  obtain rfl := Option.some.inj hrun
  intro s hs
  simp only [List.mem_map] at hs
  obtain ⟨s1, hs1, rfl⟩ := hs
  have hfold := foldl_evalStep_invariant ops fops sf scf rest
    { skills := (initSkills mods hw scf).map (fun s => Skill.process ops s
        (DifficultyObject.new fops o2 o1 none none sf scf))
      section_end := qCeil (o1.time / SECTION_LEN) * SECTION_LEN
      prev_prev := some o1
      prev := o2
      prev_vals := some ((DifficultyObject.new fops o2 o1 none none sf
          scf).jump_dist,
        (DifficultyObject.new fops o2 o1 none none sf scf).strain_time) }
    (fun o ho => hin o (by simp [ho]))
    (by
      intro s hs
      simp only [List.mem_map] at hs
      obtain ⟨s0, hs0, rfl⟩ := hs
      exact initSkills_peaks mods hw scf s0 hs0)
  have hp := hfold.1 s1 hs1
  simp [Skill.save_current_peak, hp]

/-- Witness for claim C6 on two simultaneous circles in the first
section. -/
theorem claim_C6_witness :
    (getSkill c6WitnessSkills 0).strain_peaks.length = 1 ∧
      (getSkill c6WitnessSkills 1).strain_peaks.length = 1 := by
  have h := claim_C6_amended trivOps trivFops noMods 50 1 1
    (mkCircle ⟨0, 0⟩ 0) (mkCircle ⟨50, 0⟩ 0) [] c6WitnessSkills
    ?_ ?_
  · exact ⟨h (getSkill c6WitnessSkills 0)
      (by simp [c6WitnessSkills, getSkill]),
      h (getSkill c6WitnessSkills 1) (by simp [c6WitnessSkills, getSkill])⟩
  · norm_num [runSkills, crossSections, sectionSteps, qCeil, mkCircle,
      SECTION_LEN, Int.ceil_zero, initSkills, Skill.new, noMods,
      runSections, List.foldl_nil, DifficultyObject.new, Skill.process,
      Skill.save_current_peak, trivOps, trivFops, MIN_STRAIN_TIME,
      Pos.distSq, c6WitnessSkills]
  · intro o ho
    simp only [List.mem_cons, List.not_mem_nil, or_false] at ho
    rcases ho with rfl | rfl <;>
      norm_num [mkCircle, qCeil, SECTION_LEN, Int.ceil_zero]

/-- Claim C8: the aim/speed base performances never fall below the floor
1/100000 and are never negative, the flashlight base performance is
nonnegative, the star rating is nonnegative for every returned result, and
a combined base performance at or below 0.00001 short-circuits the star
rating to exactly zero.  The transcendental `f32` operations are assumed
nonnegativity-preserving, as the real ones are on these inputs. -/
theorem claim_C8_aggregation (fops : FloatOps)
    (hcbrt : ∀ x : ℚ, 0 ≤ x → 0 ≤ fops.cbrt x)
    (hexp2 : ∀ x : ℚ, 0 < fops.exp2 x)
    (hpowf : ∀ x e : ℚ, 0 ≤ x → 0 ≤ fops.powf x e) :
    (∀ r : ℚ, 1 / 100000 ≤ baseAimPerformance r) ∧
      (∀ r : ℚ, 1 / 100000 ≤ baseSpeedPerformance r) ∧
      (∀ (fl : Bool) (r : ℚ), 0 ≤ baseFlashlightPerformance fl r) ∧
      (∀ a s f : ℚ, 0 ≤ a → 0 ≤ s → 0 ≤ f →
        0 ≤ combinedBasePerformance fops a s f) ∧
      (∀ bp : ℚ, bp ≤ 1 / 100000 → starRatingOf fops bp = 0) ∧
      ∀ (ops : SkillOps) (map : Beatmap) (mods : ModsData) (p : Option ℕ)
        (out : DifficultyAttributes),
        stars ops fops map mods p = some out → 0 ≤ out.stars := by
  have haim : ∀ r : ℚ, 1 / 100000 ≤ baseAimPerformance r := by
    intro r
    simp only [baseAimPerformance]
    have h1 := le_max_right (r / (675 / 10000)) (1 : ℚ)
    have hb : (1 : ℚ) ≤ 5 * max (r / (675 / 10000)) 1 - 4 := by linarith
    nlinarith [hb]
  have hspeed : ∀ r : ℚ, 1 / 100000 ≤ baseSpeedPerformance r := by
    intro r
    simp only [baseSpeedPerformance]
    have h1 := le_max_right (r / (675 / 10000)) (1 : ℚ)
    have hb : (1 : ℚ) ≤ 5 * max (r / (675 / 10000)) 1 - 4 := by linarith
    nlinarith [hb]
  have hflash : ∀ (fl : Bool) (r : ℚ),
      0 ≤ baseFlashlightPerformance fl r := by
    intro fl r
    unfold baseFlashlightPerformance
    split
    · exact mul_nonneg (mul_self_nonneg r) (by norm_num)
    · exact le_refl 0
  have hcomb : ∀ a s f : ℚ, 0 ≤ a → 0 ≤ s → 0 ≤ f →
      0 ≤ combinedBasePerformance fops a s f := by
    intro a s f ha hs hf
    exact hpowf _ _ (add_nonneg (add_nonneg (hpowf _ _ ha) (hpowf _ _ hs))
      (hpowf _ _ hf))
  have hzero : ∀ bp : ℚ, bp ≤ 1 / 100000 → starRatingOf fops bp = 0 := by
    intro bp h
    unfold starRatingOf
    rw [if_neg (not_lt.2 h)]
  have hsr : ∀ bp : ℚ, 0 ≤ bp → 0 ≤ starRatingOf fops bp := by
    intro bp hbp
    unfold starRatingOf
    split
    · refine mul_nonneg (mul_nonneg (hcbrt _ (by norm_num)) (by norm_num))
        ?_
      refine add_nonneg (hcbrt _ ?_) (by norm_num)
      exact mul_nonneg (div_nonneg (by norm_num) (hexp2 _).le) hbp
    · exact le_refl 0
  refine ⟨haim, hspeed, hflash, hcomb, hzero, ?_⟩
  intro ops map mods p out h
  unfold stars starsWithTake at h
  by_cases ht : p.getD map.hit_objects.length < 2
  · rw [if_pos ht] at h
    obtain rfl := Option.some.inj h
    exact le_refl 0
  · rw [if_neg ht] at h
    cases hs : starsSkills ops fops map mods
        (p.getD map.hit_objects.length) with
    | none => rw [hs] at h; cases h
    | some sk =>
      rw [hs] at h
      obtain rfl := Option.some.inj h
      refine hsr _ (hcomb _ _ _ ?_ ?_ (hflash _ _))
      · exact le_trans (by norm_num) (haim _)
      · exact le_trans (by norm_num) (hspeed _)

/-- Witness for claim C8 with the trivial float operations. -/
theorem claim_C8_witness :
    (1 : ℚ) / 100000 ≤ baseAimPerformance 0 ∧
      starRatingOf trivFops 0 = 0 := by
  have h := claim_C8_aggregation trivFops (fun x hx => le_refl 0)
    (fun x => one_pos) (fun x e hx => le_refl 0)
  exact ⟨h.1 0, h.2.2.2.2.1 0 (by norm_num)⟩

/-- Claim C2: on the hard-rock ar-10 map `c2Map`, `stars` caps `raw_ar` at
10 (stack threshold 450) and stacks the overlapping pair, while `strains`
leaves `raw_ar` at 14 (stack threshold -150) and does not; the two
functions therefore feed different normalized object streams to the
skills, breaking the claimed reconciliation. -/
theorem claim_C2_stream_divergence :
    starsProcessed c2Map hrMods 2 ≠ strainsProcessed c2Map hrMods := by
  norm_num [starsProcessed, starsStacked, starsObjects, starsRawAr,
    starsStackThreshold, strainsProcessed, strainsStacked, strainsObjects,
    strainsRawAr, strainsStackThreshold, scaleOf, radiusOf, scaleFactorOf,
    mapAttributesWithMods, adjustRating, adjustCs, flipY, OsuObject.ofRaw,
    difficulty_range, difficulty_range_ar, OSU_AR_MAX, OSU_AR_AVG,
    OSU_AR_MIN, PLAYFIELD_HEIGHT, OBJECT_RADIUS, NORMALIZED_RADIUS, stacking,
    stackingRun, stackingStep, circleScan, sliderScan, sliderOffsetLoop,
    getObj, setStack, addStack, subStack, Pos.closerThan, Pos.distSq,
    STACK_DISTANCE, applyStackOffsetAndClock, Pos.add, Pos.single, c2Map,
    hrMods, rawCircle, OsuObject.is_circle, OsuObject.is_slider,
    OsuObject.is_spinner, circle_ne_slider, circle_ne_spinner,
    slider_ne_circle, slider_ne_spinner, spinner_ne_circle,
    spinner_ne_slider, abs_pos, List.filterMap_cons, List.filterMap_nil,
    List.take_succ_cons, List.take_zero, List.take_nil, Option.map_some',
    Option.map_none', List.length_cons, List.length_nil]
